import Mathlib

/-!
Verification development for the Fortnite scorecard aggregation pipeline
(`fortnite_processor.py`, `cli.py`).  Strings are modelled as `List Char`;
Python `str` operations (strip, lower, substring test, startswith/endswith,
single-character replace) are given explicit character-level definitions, and
`normalize_username` is translated stage by stage from the source.
-/

namespace Fortnite

/-- Whitespace characters stripped by Python's `str.strip()` (ASCII range). -/
def isPySpace (c : Char) : Bool :=
  c = ' ' || c = '\t' || c = '\n' || c = '\r' || c = '\x0b' || c = '\x0c'

/-- Python `str.strip()`: drop whitespace from both ends. -/
def trimL (l : List Char) : List Char :=
  ((l.dropWhile isPySpace).reverse.dropWhile isPySpace).reverse

/-- Python `str.lower()` (ASCII letters). -/
def lowerL (l : List Char) : List Char := l.map Char.toLower

/-- The character class kept by `re.sub(r'[^a-zA-Z]', '', s)`. -/
def isAsciiAlpha (c : Char) : Bool :=
  ('a' ≤ c && c ≤ 'z') || ('A' ≤ c && c ≤ 'Z')

def isAsciiDigit (c : Char) : Bool := '0' ≤ c && c ≤ '9'

/-- Python's substring test `needle in hay`. -/
def isSubstr (needle : List Char) : List Char → Bool
  | [] => needle.isEmpty
  | c :: rest => needle.isPrefixOf (c :: rest) || isSubstr needle rest

/-- Placeholder tokens checked against the trimmed, lower-cased raw username. -/
def placeholderTokens : List (List Char) :=
  ["anonymous".data, "player".data, "newplayer".data]

/-- The hardcoded whole-string correction table (`specific_fixes`). -/
def specificFixes : List (List Char × List Char) :=
  [ ("amdibbs".data, "dibbs".data)
  , ("nvfjj".data, "jj".data)
  , ("doby".data, "dob".data)
  , ("zquintin".data, "quintin".data)
  , ("quintin".data, "quintin".data)
  , ("skittle".data, "skitle".data)
  , ("skeletos".data, "skeleto".data)
  , ("amdarkcel".data, "darkcely".data)
  , ("amdarkcely".data, "darkcely".data)
  , ("darkcel".data, "darkcely".data)
  , ("darkcely".data, "darkcely".data)
  , ("scamo".data, "camo".data)
  , ("legendx".data, "legend".data)
  , ("herox".data, "hero".data) ]

/-- The digit-to-letter OCR substitution table, in source (insertion) order. -/
def ocrPairs : List (Char × Char) :=
  [('0', 'o'), ('1', 'i'), ('5', 's'), ('3', 'e'), ('7', 't'), ('8', 'b'), ('6', 'g')]

/-- `normalized.replace(digit, letter)` applied for each table entry in order. -/
def ocrReplace (l : List Char) : List Char :=
  ocrPairs.foldl (fun acc p => acc.map (fun c => if c = p.1 then p.2 else c)) l

/-- Emit a run of `n` copies of `c`, collapsed to one copy when `n ≥ 4`. -/
def emitRun (c : Char) (n : Nat) : List Char :=
  if 4 ≤ n then [c] else List.replicate n c

/-- Worker for `collapseRuns`: `acc` is the pending run (char, count). -/
def collapseRunsGo (c : Char) (n : Nat) : List Char → List Char
  | [] => emitRun c n
  | d :: rest =>
      if d = c then collapseRunsGo c (n + 1) rest
      else emitRun c n ++ collapseRunsGo d 1 rest

/-- `re.sub(r'(.)\1{3,}', r'\1', s)`: each maximal run of 4+ identical
characters collapses to a single occurrence. -/
def collapseRuns : List Char → List Char
  | [] => []
  | c :: rest => collapseRunsGo c 1 rest

/-- The `gaming_prefixes` list, in source order. -/
def gamingPrefixes : List (List Char) :=
  [ "ttv".data, "twitch".data, "yt".data, "youtube".data, "stream".data,
    "live".data, "tv".data, "dvs".data, "ktk".data, "gvg".data, "zmr".data,
    "faze".data, "tsm".data, "nrg".data, "og".data, "clan".data,
    "reign".data, "team".data, "guild".data, "squad".data, "crew".data,
    "pro".data, "esports".data ]

/-- The `gaming_suffixes` list, in source order. -/
def gamingSuffixes : List (List Char) :=
  [ "ttv".data, "twitch".data, "yt".data, "youtube".data, "stream".data,
    "tv".data, "live".data, "pro".data, "gaming".data, "game".data,
    "player".data, "god".data, "king".data, "queen".data, "win".data,
    "wins".data, "best".data, "top".data, "og".data, "official".data ]

/-- Prefix loop: strip the first listed prefix whose removal leaves ≥ 4
characters; at most one removal (`break`). -/
def stripTagAtStart (ps : List (List Char)) (l : List Char) : List Char :=
  match ps with
  | [] => l
  | p :: rest =>
      if p.isPrefixOf l ∧ p.length < l.length ∧ 4 ≤ l.length - p.length then
        l.drop p.length
      else stripTagAtStart rest l

/-- Suffix loop: strip the first listed suffix whose removal leaves ≥ 4
characters; at most one removal (`break`). -/
def stripTagAtEnd (ss : List (List Char)) (l : List Char) : List Char :=
  match ss with
  | [] => l
  | s :: rest =>
      if s.isSuffixOf l ∧ s.length < l.length ∧ 4 ≤ l.length - s.length then
        l.take (l.length - s.length)
      else stripTagAtEnd rest l

/-- `xx...xx` wrapper removal (`normalized[2:-2]` when guards pass). -/
def stripXX (l : List Char) : List Char :=
  if 6 < l.length ∧ ("xx".data).isPrefixOf l ∧ ("xx".data).isSuffixOf l then
    let potential := (l.drop 2).take (l.length - 4)
    if 3 ≤ potential.length then potential else l
  else l

/-- Leading `[0-9]am` / `[0-9]kt` decorative pattern removal. -/
def stripNumPattern (l : List Char) : List Char :=
  if 6 < l.length then
    match l with
    | d :: a :: m :: rest =>
        if isAsciiDigit d ∧ a = 'a' ∧ m = 'm' then
          if 4 ≤ rest.length then rest else l
        else if isAsciiDigit d ∧ a = 'k' ∧ m = 't' then
          if 4 ≤ rest.length then rest else l
        else l
    | _ => l
  else l

def shortPrefixes : List (List Char) := ["nvf".data, "gvg".data, "zmr".data]

/-- Short clan-tag prefix removal (`nvf`, `gvg`, `zmr`) guarded by length. -/
def stripShortTag (l : List Char) : List Char :=
  if 6 < l.length then
    match shortPrefixes.find? (fun p => p.isPrefixOf l) with
    | some p => if 4 ≤ l.length - p.length then l.drop p.length else l
    | none => l
  else l

def singleLetters : List Char := ['z', 'x', 'q', 'b', 'c', 's']

def goodFollow : List Char := "aeioudhmnprstl".data

/-- Single-letter prefix removal, only before a vowel/common consonant. -/
def stripSingleLetter (l : List Char) : List Char :=
  if 5 < l.length then
    match l with
    | c :: rest =>
        if c ∈ singleLetters ∧ 4 ≤ rest.length ∧
            rest.head?.any (fun r => goodFollow.contains r) then rest
        else l
    | [] => l
  else l

/-- Trailing `'y'`/`'z'` removal, guarded by `len(normalized) > 4` and a
remainder of at least 3 characters. -/
def stripYZ (l : List Char) : List Char :=
  if 4 < l.length ∧ (l.getLast? = some 'y' ∨ l.getLast? = some 'z') then
    let potential := l.dropLast
    if 3 ≤ potential.length then potential else l
  else l

/-- `normalize_username` from `fortnite_processor.py`, stage by stage. -/
def normalizeL (username : List Char) : List Char :=
  if username = [] ∨ trimL username = [] then []
  else
    let original := trimL username
    if placeholderTokens.any (fun t => isSubstr t (lowerL original)) then
      "player".data
    else
      let normalized := lowerL (original.filter isAsciiAlpha)
      match specificFixes.lookup normalized with
      | some fixed => fixed
      | none =>
          let n1 := ocrReplace normalized
          let n2 := collapseRuns n1
          let n3 := stripTagAtStart gamingPrefixes n2
          let n4 := stripTagAtEnd gamingSuffixes n3
          let n5 := stripXX n4
          let n6 := stripNumPattern n5
          let n7 := stripShortTag n6
          let n8 := stripSingleLetter n7
          let n9 := stripYZ n8
          let n10 :=
            if n9.length < 2 then
              let cleaned := lowerL (original.filter isAsciiAlpha)
              if 2 ≤ cleaned.length then cleaned else lowerL original
            else n9
          trimL n10

/-- String-level wrapper for the normalizer. -/
def normalize_username (s : String) : String := String.mk (normalizeL s.data)

/-! ## Data model -/

/-- One player's stats as reported by the extraction oracle for one image. -/
structure RawPlayerEntry where
  username : String
  team : String
  eliminations : Nat
  deaths : Nat
  assists : Nat
  damage : Nat
  plants : Nat
  defuses : Nat
deriving DecidableEq, Repr

/-- Match metadata attached to one processed image. -/
structure MatchInfo where
  timestamp : String
  match_result : String
deriving DecidableEq, Repr

/-- The structured record produced per processed image. -/
structure ImageResult where
  match_info : MatchInfo
  players : List RawPlayerEntry
deriving DecidableEq, Repr

/-- An aggregated per-player record, as kept by `new_player_data` /
`combined_data` in `export_to_google_sheets`. -/
structure PlayerRecord where
  username : String
  team : String
  games_played : Nat
  total_eliminations : Nat
  total_deaths : Nat
  total_assists : Nat
  total_damage : Nat
  total_plants : Nat
  total_defuses : Nat
  last_seen : String
deriving DecidableEq, Repr

/-- A Python dict keyed by normalized username. -/
abbrev RecMap := String → Option PlayerRecord

def emptyRecMap : RecMap := fun _ => none

/-- First guard: `not player['username'] or not player['username'].strip()`. -/
def skipEntry (e : RawPlayerEntry) : Prop :=
  e.username.data = [] ∨ trimL e.username.data = []

instance (e : RawPlayerEntry) : Decidable (skipEntry e) := by
  unfold skipEntry; infer_instance

/-- Second guard: `not username_key or not username_key.strip()`. -/
def keyEmpty (k : String) : Prop :=
  k.data = [] ∨ trimL k.data = []

instance (k : String) : Decidable (keyEmpty k) := by
  unfold keyEmpty; infer_instance

/-- Zero-initialised record inserted on the first sight of a key. -/
def initRecord (e : RawPlayerEntry) (ts : String) : PlayerRecord :=
  { username := e.username, team := e.team, games_played := 0
  , total_eliminations := 0, total_deaths := 0, total_assists := 0
  , total_damage := 0, total_plants := 0, total_defuses := 0
  , last_seen := ts }

/-- The per-entry accumulation step applied to the record stored at the key. -/
def bumpRecord (r : PlayerRecord) (e : RawPlayerEntry) (ts : String) : PlayerRecord :=
  { r with
    games_played := r.games_played + 1,
    total_eliminations := r.total_eliminations + e.eliminations,
    total_deaths := r.total_deaths + e.deaths,
    total_assists := r.total_assists + e.assists,
    total_damage := r.total_damage + e.damage,
    total_plants := r.total_plants + e.plants,
    total_defuses := r.total_defuses + e.defuses,
    last_seen := ts, team := e.team }

/-- Processing one raw entry in STEP 2 of `export_to_google_sheets`. -/
def addEntry (m : RecMap) (ts : String) (e : RawPlayerEntry) : RecMap :=
  if skipEntry e then m
  else
    let key := normalize_username e.username
    if keyEmpty key then m
    else
      let base := (m key).getD (initRecord e ts)
      fun k => if k = key then some (bumpRecord base e ts) else m k

/-- STEP 2: fold all images' entries into a per-run map (starting from `m`). -/
def aggregateNew (m : RecMap) (results : List ImageResult) : RecMap :=
  results.foldl
    (fun acc r => r.players.foldl (fun acc2 e => addEntry acc2 r.match_info.timestamp e) acc) m

/-- STEP 3 per-key combination: cumulative fields sum, the existing display
username is kept, team and last_seen take the new run's values. -/
def combineRecords (ex nw : PlayerRecord) : PlayerRecord :=
  { ex with
    games_played := ex.games_played + nw.games_played,
    total_eliminations := ex.total_eliminations + nw.total_eliminations,
    total_deaths := ex.total_deaths + nw.total_deaths,
    total_assists := ex.total_assists + nw.total_assists,
    total_damage := ex.total_damage + nw.total_damage,
    total_plants := ex.total_plants + nw.total_plants,
    total_defuses := ex.total_defuses + nw.total_defuses,
    team := nw.team, last_seen := nw.last_seen }

/-- STEP 3: combine the existing snapshot with the new per-run map. -/
def combineMaps (E N : RecMap) : RecMap := fun k =>
  match N k with
  | none => E k
  | some nw =>
      match E k with
      | none => some nw
      | some ex => some (combineRecords ex nw)

/-- The merge performed by `export_to_google_sheets`: STEP 2 then STEP 3. -/
def mergeSheets (E : RecMap) (results : List ImageResult) : RecMap :=
  combineMaps E (aggregateNew emptyRecMap results)

/-! ## Reading the existing snapshot (STEP 1) -/

/-- One row as returned by `worksheet.get_all_records()`; the two timestamp
columns are optional because `record.get` falls back when a column is absent. -/
structure SheetRow where
  username : String
  games_played : Nat
  total_eliminations : Nat
  total_deaths : Nat
  total_assists : Nat
  total_damage : Nat
  total_plants : Nat
  total_defuses : Nat
  team : String
  last_updated : Option String
  last_seen : Option String
deriving DecidableEq, Repr

/-- The record built from one sheet row. -/
def rowRecord (r : SheetRow) : PlayerRecord :=
  { username := r.username, team := r.team, games_played := r.games_played
  , total_eliminations := r.total_eliminations, total_deaths := r.total_deaths
  , total_assists := r.total_assists, total_damage := r.total_damage
  , total_plants := r.total_plants, total_defuses := r.total_defuses
  , last_seen := r.last_updated.getD (r.last_seen.getD "") }

/-- STEP 1: build `existing_data` from the sheet rows; rows with an empty
username are skipped, and a later row overwrites the entry stored for its key. -/
def readExisting (rows : List SheetRow) : RecMap :=
  rows.foldl
    (fun m r =>
      if r.username = "" then m
      else fun k => if k = normalize_username r.username then some (rowRecord r) else m k)
    emptyRecMap

/-! ## Export row derivation -/

/-- Rounding used by the source's `round(x, 2)` (exact at non-tie inputs). -/
def pyRound2 (q : ℚ) : ℚ := (round (q * 100) : ℤ) / 100

/-- The `kdRatioQ` column: `round(total_eliminations / max(total_deaths, 1), 2)`. -/
def kdRatioQ (r : PlayerRecord) : ℚ :=
  pyRound2 ((r.total_eliminations : ℚ) / (max r.total_deaths 1 : ℚ))

/-! ## Cumulative totals, for the merge-invariance arguments -/

/-- The cumulative-total fields of a record, as one tuple:
(games_played, eliminations, deaths, assists, damage, plants, defuses). -/
abbrev Totals := Nat × Nat × Nat × Nat × Nat × Nat × Nat

def recTotals (r : PlayerRecord) : Totals :=
  (r.games_played, r.total_eliminations, r.total_deaths, r.total_assists,
   r.total_damage, r.total_plants, r.total_defuses)

/-- The contribution of a single raw entry to its key's totals. -/
def entryTotals (e : RawPlayerEntry) : Totals :=
  (1, e.eliminations, e.deaths, e.assists, e.damage, e.plants, e.defuses)

/-- Totals stored at a key, `none` when the key is absent. -/
def totOpt (o : Option PlayerRecord) : Option Totals := o.map recTotals

/-- Addition on optional totals (`none` is "key absent"). -/
def addOpt : Option Totals → Option Totals → Option Totals
  | none, b => b
  | some a, none => some a
  | some a, some b => some (a + b)

/-- Whether (and how much) a raw entry contributes to key `k`. -/
def contribAt (k : String) (e : RawPlayerEntry) : Option Totals :=
  if skipEntry e then none
  else if keyEmpty (normalize_username e.username) then none
  else if normalize_username e.username = k then some (entryTotals e) else none

/-- Per-run entry stream: (timestamp, entry) pairs, in processing order. -/
def foldEntries (m : RecMap) (l : List (String × RawPlayerEntry)) : RecMap :=
  l.foldl (fun acc p => addEntry acc p.1 p.2) m

/-- All entries of a list of image results, each paired with its image's
timestamp, in processing order. -/
def flatEntries : List ImageResult → List (String × RawPlayerEntry)
  | [] => []
  | r :: rest => (r.players.map (fun e => (r.match_info.timestamp, e))) ++ flatEntries rest

/-- Total contribution of an entry stream to key `k`. -/
def contribList (k : String) (l : List (String × RawPlayerEntry)) : Option Totals :=
  l.foldl (fun a p => addOpt a (contribAt k p.2)) none

/-- Sum of a list of totals, `none` for the empty list. -/
def sumOptList : List Totals → Option Totals
  | [] => none
  | t :: ts => some ((t :: ts).sum)

/-! ## CSV export aggregation (`export_to_csv`) -/

/-- An aggregated record of the CSV path (`player_aggregates` values). -/
structure CsvRecord where
  username : String
  team : String
  games_played : Nat
  total_eliminations : Nat
  total_deaths : Nat
  total_assists : Nat
  total_damage : Nat
  total_plants : Nat
  total_defuses : Nat
  victories : Nat
  defeats : Nat
  last_seen : String
  first_seen : String
deriving DecidableEq, Repr

abbrev CsvMap := String → Option CsvRecord

def emptyCsvMap : CsvMap := fun _ => none

/-- Zero-initialised CSV record on first sight of a key. -/
def csvInit (e : RawPlayerEntry) (ts : String) : CsvRecord :=
  { username := e.username, team := e.team, games_played := 0
  , total_eliminations := 0, total_deaths := 0, total_assists := 0
  , total_damage := 0, total_plants := 0, total_defuses := 0
  , victories := 0, defeats := 0, last_seen := ts, first_seen := ts }

/-- The per-entry accumulation of the CSV path, including win/loss tracking. -/
def csvBump (r : CsvRecord) (e : RawPlayerEntry) (mi : MatchInfo) : CsvRecord :=
  { r with
    games_played := r.games_played + 1,
    total_eliminations := r.total_eliminations + e.eliminations,
    total_deaths := r.total_deaths + e.deaths,
    total_assists := r.total_assists + e.assists,
    total_damage := r.total_damage + e.damage,
    total_plants := r.total_plants + e.plants,
    total_defuses := r.total_defuses + e.defuses,
    victories := if mi.match_result = "VICTORY" then r.victories + 1 else r.victories,
    defeats := if mi.match_result = "VICTORY" then r.defeats else r.defeats + 1,
    last_seen := mi.timestamp, team := e.team }

/-- One loop iteration of the CSV aggregation.  The `Nat` component counts the
skip warnings printed, one per skipped entry. -/
def csvStep (st : CsvMap × Nat) (mi : MatchInfo) (e : RawPlayerEntry) : CsvMap × Nat :=
  if skipEntry e then (st.1, st.2 + 1)
  else
    let key := normalize_username e.username
    if keyEmpty key then (st.1, st.2 + 1)
    else
      let base := (st.1 key).getD (csvInit e mi.timestamp)
      (fun k => if k = key then some (csvBump base e mi) else st.1 k, st.2)

/-- The CSV aggregation over all image results. -/
def csvAggregate (results : List ImageResult) : CsvMap × Nat :=
  results.foldl
    (fun st r => r.players.foldl (fun st2 e => csvStep st2 r.match_info e) st)
    (emptyCsvMap, 0)

/-! ## CLI surface (`cli.py main`) -/

inductive CliEvent where
  | errorExit : CliEvent
  | csvExport : CliEvent
  | sheetsExport (ok : Bool) : CliEvent
deriving DecidableEq, Repr

/-- The control flow of `cli.py main` as the sequence of observable run events,
parameterised by the discovered image files, the results the oracle produced,
the no-sheets flag and the sheets-export outcome. -/
def cliEvents (imageFiles : List String) (results : List ImageResult)
    (noSheets sinkOk : Bool) : List CliEvent :=
  if imageFiles = [] then [CliEvent.errorExit]
  else if results = [] then [CliEvent.errorExit]
  else CliEvent.csvExport :: (if noSheets then [] else [CliEvent.sheetsExport sinkOk])

/-! ## Leaderboard sheet write (STEP 5 of `export_to_google_sheets`) -/

def batchSize : Nat := 100

/-- How many batch appends `range(0, n, batch_size)` performs. -/
def numBatches (n : Nat) : Nat := (n + batchSize - 1) / batchSize

/-- Data rows visible after the clear and `k` successful batch appends:
batch `k` is `rows_to_add[k*batch_size : (k+1)*batch_size]`. -/
def stateAfterBatches {α : Type} (rows : List α) : Nat → List α
  | 0 => []
  | k + 1 => stateAfterBatches rows k ++ ((rows.drop (k * batchSize)).take batchSize)

/-- Where an externally-raised failure interrupts the write: before the data
region is cleared, or after `k` batch appends have succeeded. -/
inductive WriteFailure where
  | beforeClear : WriteFailure
  | afterBatches (k : Nat) : WriteFailure
deriving DecidableEq, Repr

/-- The committed data region visible to subsequent reads once the write loop
stops (successfully, or at the given failure point). -/
def sheetWriteCommitted {α : Type} (prior rows : List α) : Option WriteFailure → List α
  | none => stateAfterBatches rows (numBatches rows.length)
  | some WriteFailure.beforeClear => prior
  | some (WriteFailure.afterBatches k) => stateAfterBatches rows k

/-! ## Duplicate-image guard (`process_image`) -/

/-- The duplicate-hash guard around the extraction call in `process_image`:
returns the updated hash set and the per-image outcome; `extraction` is the
oracle outcome (`none` = the extraction call failed). -/
def processImage (hashes : List String) (dupCheck : Bool) (h : String)
    (extraction : Option ImageResult) : List String × Option ImageResult :=
  if dupCheck then
    if h ∈ hashes then (hashes, none)
    else (h :: hashes, extraction)
  else (hashes, extraction)

theorem addOpt_none_right (a : Option Totals) : addOpt a none = a := by
  cases a <;> rfl

theorem addOpt_assoc (a b c : Option Totals) :
    addOpt (addOpt a b) c = addOpt a (addOpt b c) := by
  cases a <;> cases b <;> cases c <;> simp [addOpt, add_assoc]

theorem recTotals_bump (r : PlayerRecord) (e : RawPlayerEntry) (ts : String) :
    recTotals (bumpRecord r e ts) = recTotals r + entryTotals e := by
  simp [recTotals, bumpRecord, entryTotals, Prod.mk_add_mk]

theorem recTotals_init_add (e : RawPlayerEntry) (ts : String) (t : Totals) :
    recTotals (initRecord e ts) + t = t := by
  obtain ⟨a, b, c, d, f, g, h⟩ := t
  simp [recTotals, initRecord, Prod.mk_add_mk]

theorem recTotals_combine (ex nw : PlayerRecord) :
    recTotals (combineRecords ex nw) = recTotals ex + recTotals nw := by
  simp [recTotals, combineRecords, Prod.mk_add_mk]

theorem totOpt_addEntry (m : RecMap) (ts : String) (e : RawPlayerEntry) (k : String) :
    totOpt (addEntry m ts e k) = addOpt (totOpt (m k)) (contribAt k e) := by
  unfold addEntry contribAt
  by_cases hs : skipEntry e
  · simp [hs, addOpt_none_right]
  · simp only [hs, if_false, ite_false]
    by_cases hk : keyEmpty (normalize_username e.username)
    · simp [hk, addOpt_none_right]
    · simp only [hk, if_false, ite_false]
      by_cases heq : normalize_username e.username = k
      · subst heq
        simp only [if_pos rfl, totOpt, Option.map_some]
        cases hm : m (normalize_username e.username) with
        | none =>
            simp [hm, recTotals_bump, addOpt, Option.map, recTotals_init_add]
        | some r =>
            simp [hm, recTotals_bump, addOpt, Option.map]
      · rw [if_neg heq, if_neg (fun h => heq h.symm), addOpt_none_right]

theorem foldEntries_append (m : RecMap) (a b : List (String × RawPlayerEntry)) :
    foldEntries m (a ++ b) = foldEntries (foldEntries m a) b := by
  simp [foldEntries, List.foldl_append]

theorem aggregateNew_eq_foldEntries (results : List ImageResult) (m : RecMap) :
    aggregateNew m results = foldEntries m (flatEntries results) := by
  induction results generalizing m with
  | nil => rfl
  | cons r rest ih =>
      have inner : r.players.foldl (fun acc2 e => addEntry acc2 r.match_info.timestamp e) m
          = foldEntries m (r.players.map (fun e => (r.match_info.timestamp, e))) := by
        rw [foldEntries, List.foldl_map]
      calc aggregateNew m (r :: rest)
          = aggregateNew
              (r.players.foldl (fun acc2 e => addEntry acc2 r.match_info.timestamp e) m)
              rest := rfl
        _ = foldEntries (foldEntries m (r.players.map (fun e => (r.match_info.timestamp, e))))
              (flatEntries rest) := by rw [ih, inner]
        _ = foldEntries m (flatEntries (r :: rest)) := by
              rw [← foldEntries_append]
              rfl

theorem contribList_foldl_init (k : String) (l : List (String × RawPlayerEntry))
    (a : Option Totals) :
    l.foldl (fun x p => addOpt x (contribAt k p.2)) a = addOpt a (contribList k l) := by
  induction l generalizing a with
  | nil => simp [contribList, addOpt_none_right]
  | cons p l ih =>
      rw [List.foldl_cons, ih]
      conv_rhs => rw [contribList, List.foldl_cons, ih]
      rw [addOpt_assoc]
      rfl

theorem contribList_cons (k : String) (p : String × RawPlayerEntry)
    (l : List (String × RawPlayerEntry)) :
    contribList k (p :: l) = addOpt (contribAt k p.2) (contribList k l) := by
  rw [contribList, List.foldl_cons, contribList_foldl_init]
  rfl

theorem totOpt_foldEntries (l : List (String × RawPlayerEntry)) (m : RecMap) (k : String) :
    totOpt (foldEntries m l k) = addOpt (totOpt (m k)) (contribList k l) := by
  induction l generalizing m with
  | nil => simp [foldEntries, contribList, addOpt_none_right]
  | cons p l ih =>
      rw [foldEntries, List.foldl_cons,
        show (List.foldl (fun acc q => addEntry acc q.1 q.2) (addEntry m p.1 p.2) l)
          = foldEntries (addEntry m p.1 p.2) l from rfl,
        ih, totOpt_addEntry, contribList_cons, ← addOpt_assoc]

theorem totOpt_combineMaps (E N : RecMap) (k : String) :
    totOpt (combineMaps E N k) = addOpt (totOpt (E k)) (totOpt (N k)) := by
  unfold combineMaps
  cases hN : N k with
  | none => simp [totOpt, addOpt_none_right]
  | some nw =>
      cases hE : E k with
      | none => simp [totOpt, addOpt]
      | some ex => simp [totOpt, addOpt, recTotals_combine]

theorem totOpt_mergeSheets (E : RecMap) (results : List ImageResult) (k : String) :
    totOpt (mergeSheets E results k)
      = addOpt (totOpt (E k)) (contribList k (flatEntries results)) := by
  unfold mergeSheets
  rw [totOpt_combineMaps, aggregateNew_eq_foldEntries, totOpt_foldEntries]
  simp [emptyRecMap, totOpt, addOpt]

theorem flatEntries_append (xs ys : List ImageResult) :
    flatEntries (xs ++ ys) = flatEntries xs ++ flatEntries ys := by
  induction xs with
  | nil => rfl
  | cons r rest ih => simp [flatEntries, ih]

theorem contribList_append (k : String) (a b : List (String × RawPlayerEntry)) :
    contribList k (a ++ b) = addOpt (contribList k a) (contribList k b) := by
  rw [contribList, List.foldl_append, ← contribList, contribList_foldl_init]

theorem flatEntries_perm {xs ys : List ImageResult} (h : xs.Perm ys) :
    (flatEntries xs).Perm (flatEntries ys) := by
  induction h with
  | nil => exact List.Perm.refl _
  | cons x _ ih => exact ih.append_left _
  | swap x y l =>
      have e1 : flatEntries (y :: x :: l)
          = (y.players.map fun e => (y.match_info.timestamp, e))
            ++ ((x.players.map fun e => (x.match_info.timestamp, e)) ++ flatEntries l) := rfl
      have e2 : flatEntries (x :: y :: l)
          = (x.players.map fun e => (x.match_info.timestamp, e))
            ++ ((y.players.map fun e => (y.match_info.timestamp, e)) ++ flatEntries l) := rfl
      rw [e1, e2, ← List.append_assoc, ← List.append_assoc]
      exact List.perm_append_comm.append_right _
  | trans _ _ ih1 ih2 => exact ih1.trans ih2

theorem contribList_eq_sum (k : String) (l : List (String × RawPlayerEntry)) :
    contribList k l = sumOptList (l.filterMap (fun p => contribAt k p.2)) := by
  induction l with
  | nil => rfl
  | cons p l ih =>
      rw [contribList_cons, ih]
      cases hc : contribAt k p.2 with
      | none => simp [List.filterMap_cons, hc, addOpt]
      | some v =>
          simp only [List.filterMap_cons, hc]
          cases hl : l.filterMap (fun p => contribAt k p.2) with
          | nil => simp [sumOptList, addOpt]
          | cons t ts => simp [sumOptList, addOpt, List.sum_cons]

theorem sumOptList_perm {a b : List Totals} (h : a.Perm b) :
    sumOptList a = sumOptList b := by
  cases a with
  | nil =>
      have hb : b = [] := by
        have := h.length_eq
        cases b with
        | nil => rfl
        | cons t ts => simp at this
      subst hb; rfl
  | cons t ts =>
      cases b with
      | nil =>
          have := h.length_eq
          simp at this
      | cons u us =>
          simp only [sumOptList]
          exact congrArg some h.sum_eq

theorem normalizeL_placeholder (l : List Char)
    (h : placeholderTokens.any (fun t => isSubstr t (lowerL (trimL l))) = true) :
    normalizeL l = "player".data := by
  have hne : ¬(l = [] ∨ trimL l = []) := by
    rintro (rfl | ht)
    · exact absurd h (by decide)
    · rw [ht] at h
      exact absurd h (by decide)
  unfold normalizeL
  rw [if_neg hne]
  show (if placeholderTokens.any (fun t => isSubstr t (lowerL (trimL l))) = true
      then "player".data else _) = "player".data
  rw [if_pos h]

theorem trimL_ne_nil_of_placeholder (l : List Char)
    (h : placeholderTokens.any (fun t => isSubstr t (lowerL (trimL l))) = true) :
    trimL l ≠ [] := by
  intro ht
  rw [ht] at h
  exact absurd h (by decide)

theorem stateAfterBatches_eq_take {α : Type} (rows : List α) (k : Nat) :
    stateAfterBatches rows k = rows.take (k * batchSize) := by
  induction k with
  | zero => simp [stateAfterBatches]
  | succ k ih =>
      rw [stateAfterBatches, ih, Nat.succ_mul, List.take_add]

theorem readExisting_snoc (rows : List SheetRow) (r : SheetRow) (k : String) :
    readExisting (rows ++ [r]) k
      = if r.username = "" then readExisting rows k
        else if k = normalize_username r.username then some (rowRecord r)
        else readExisting rows k := by
  unfold readExisting
  rw [List.foldl_append, List.foldl_cons, List.foldl_nil]
  by_cases hu : r.username = ""
  · simp [hu]
  · simp [hu]

/-! ## Claims -/

/-- C1: merging a new run with a single entry for "quintin" (5 eliminations,
2 deaths) into an existing snapshot whose "quintin" row has 10 eliminations,
5 deaths and games_played = 3 produces exactly this record at that key:
games_played = 4, eliminations = 15, deaths = 7; the exported kd_ratio is
round(15/7, 2) = 2.14. -/
theorem claim_C1_quintin_merge :
    (mergeSheets
        (readExisting [⟨"quintin", 3, 10, 5, 0, 0, 0, 0, "ATK", some "t0", none⟩])
        [⟨⟨"t1", "VICTORY"⟩, [⟨"quintin", "ATK", 5, 2, 0, 0, 0, 0⟩]⟩]) "quintin"
      = some ⟨"quintin", "ATK", 4, 15, 7, 0, 0, 0, 0, "t1"⟩
    ∧ kdRatioQ ⟨"quintin", "ATK", 4, 15, 7, 0, 0, 0, 0, "t1"⟩ = 214 / 100 := by
  constructor
  · decide
  · norm_num [kdRatioQ, pyRound2, round_eq]

/-- C2: the per-key cumulative totals (games_played, eliminations, deaths,
assists, damage, plants, defuses) after merging do not depend on the grouping
of the images (merging `xs` then `ys` equals merging `xs ++ ys` in one call)
nor on their order (permuting the image list leaves every key's totals
unchanged). -/
theorem claim_C2_totals_order_invariant (E : RecMap) (xs ys zs : List ImageResult)
    (hperm : ys.Perm zs) (k : String) :
    totOpt (mergeSheets (mergeSheets E xs) ys k) = totOpt (mergeSheets E (xs ++ ys) k)
    ∧ totOpt (mergeSheets E ys k) = totOpt (mergeSheets E zs k) := by
  constructor
  · rw [totOpt_mergeSheets, totOpt_mergeSheets, totOpt_mergeSheets,
      flatEntries_append, contribList_append, addOpt_assoc]
  · rw [totOpt_mergeSheets, totOpt_mergeSheets,
      contribList_eq_sum, contribList_eq_sum,
      sumOptList_perm ((flatEntries_perm hperm).filterMap _)]

/-- C2 witness: concrete instance with two images swapped, at key "alice". -/
theorem claim_C2_witness :
    (totOpt (mergeSheets (mergeSheets emptyRecMap
          [⟨⟨"t1", "VICTORY"⟩, [⟨"alice", "ATK", 1, 2, 3, 4, 5, 6⟩]⟩])
          [⟨⟨"t2", "DEFEAT"⟩, [⟨"ALICE7", "DEF", 7, 1, 0, 0, 0, 0⟩]⟩,
           ⟨⟨"t3", "VICTORY"⟩, [⟨"bob", "ATK", 2, 2, 2, 2, 2, 2⟩]⟩] "alice")
        = totOpt (mergeSheets emptyRecMap
          ([⟨⟨"t1", "VICTORY"⟩, [⟨"alice", "ATK", 1, 2, 3, 4, 5, 6⟩]⟩]
            ++ [⟨⟨"t2", "DEFEAT"⟩, [⟨"ALICE7", "DEF", 7, 1, 0, 0, 0, 0⟩]⟩,
                ⟨⟨"t3", "VICTORY"⟩, [⟨"bob", "ATK", 2, 2, 2, 2, 2, 2⟩]⟩]) "alice"))
    ∧ totOpt (mergeSheets emptyRecMap
          [⟨⟨"t2", "DEFEAT"⟩, [⟨"ALICE7", "DEF", 7, 1, 0, 0, 0, 0⟩]⟩,
           ⟨⟨"t3", "VICTORY"⟩, [⟨"bob", "ATK", 2, 2, 2, 2, 2, 2⟩]⟩] "alice")
        = totOpt (mergeSheets emptyRecMap
          [⟨⟨"t3", "VICTORY"⟩, [⟨"bob", "ATK", 2, 2, 2, 2, 2, 2⟩]⟩,
           ⟨⟨"t2", "DEFEAT"⟩, [⟨"ALICE7", "DEF", 7, 1, 0, 0, 0, 0⟩]⟩] "alice") :=
  claim_C2_totals_order_invariant emptyRecMap _ _ _
    (List.Perm.swap _ _ _) "alice"

/-- C3 counterexample: the normalizer is not idempotent.  One application
strips a single decoration suffix of "abcdwinwin", a second strips another. -/
theorem claim_C3_counterexample :
    normalize_username "abcdwinwin" = "abcdwin"
    ∧ normalize_username "abcdwin" = "abcd"
    ∧ normalize_username (normalize_username "abcdwinwin")
        ≠ normalize_username "abcdwinwin" := by
  decide

/-- C3 (amended): `normalize(normalize(x)) = normalize(x)` does not hold for
every string (a second application can strip a further decoration suffix);
it does hold for every username containing a placeholder token, where the
normalizer returns the fixed point "player". -/
theorem claim_C3_idempotent_on_placeholders (u : String)
    (h : placeholderTokens.any (fun t => isSubstr t (lowerL (trimL u.data))) = true) :
    normalize_username (normalize_username u) = normalize_username u := by
  have h1 : normalize_username u = "player" := by
    unfold normalize_username
    rw [normalizeL_placeholder u.data h]
  rw [h1]
  decide

/-- C3 witness: idempotence at the placeholder input "Anonymous". -/
theorem claim_C3_witness :
    normalize_username (normalize_username "Anonymous")
      = normalize_username "Anonymous" :=
  claim_C3_idempotent_on_placeholders "Anonymous" (by decide)

/-- C4 counterexample: "Anonymous" normalizes to "player", yet the aggregation
does not filter it out: the entry is merged into the output record at key
"player" (so it does contribute to a PlayerRecord). -/
theorem claim_C4_counterexample :
    normalize_username "Anonymous" = "player"
    ∧ ((csvAggregate
          [⟨⟨"t1", "VICTORY"⟩, [⟨"Anonymous", "ATK", 3, 1, 0, 0, 0, 0⟩]⟩]).1
        "player").isSome = true := by
  decide

/-- C4 (amended): every raw username whose trimmed, lower-cased form contains a
placeholder token normalizes to the single fixed key "player"; the aggregation
does NOT filter such entries: processing one leaves the skip count unchanged
and stores a record at key "player". -/
theorem claim_C4_placeholder_key_merged (u team : String)
    (ek dk ak dmg pk dfk : Nat) (m : CsvMap) (s : Nat) (mi : MatchInfo)
    (h : placeholderTokens.any (fun t => isSubstr t (lowerL (trimL u.data))) = true) :
    normalize_username u = "player"
    ∧ (csvStep (m, s) mi ⟨u, team, ek, dk, ak, dmg, pk, dfk⟩).2 = s
    ∧ ((csvStep (m, s) mi ⟨u, team, ek, dk, ak, dmg, pk, dfk⟩).1 "player").isSome
        = true := by
  have hkey : normalize_username u = "player" := by
    unfold normalize_username
    rw [normalizeL_placeholder u.data h]
  have htrim : trimL u.data ≠ [] := trimL_ne_nil_of_placeholder u.data h
  have husr : u.data ≠ [] := by
    intro hu
    exact htrim (by rw [hu]; rfl)
  have hskip : ¬ skipEntry ⟨u, team, ek, dk, ak, dmg, pk, dfk⟩ := by
    rintro (h1 | h2)
    · exact husr h1
    · exact htrim h2
  have hke : ¬ keyEmpty ("player" : String) := by decide
  refine ⟨hkey, ?_, ?_⟩ <;>
    simp [csvStep, hskip, hke, hkey]

/-- C4 witness: a concrete placeholder entry is merged, not filtered. -/
theorem claim_C4_witness :
    normalize_username "NewPlayer22" = "player"
    ∧ (csvStep (emptyCsvMap, 0) ⟨"t1", "VICTORY"⟩
        ⟨"NewPlayer22", "DEF", 2, 2, 2, 2, 2, 2⟩).2 = 0
    ∧ ((csvStep (emptyCsvMap, 0) ⟨"t1", "VICTORY"⟩
        ⟨"NewPlayer22", "DEF", 2, 2, 2, 2, 2, 2⟩).1 "player").isSome = true :=
  claim_C4_placeholder_key_merged "NewPlayer22" "DEF" 2 2 2 2 2 2
    emptyCsvMap 0 ⟨"t1", "VICTORY"⟩ (by decide)

/-- C5: an entry whose username is empty or whitespace-only (or whose
normalized key is empty) contributes no record to the aggregation and bumps
the skip count by exactly one; the run continues. -/
theorem claim_C5_empty_username_skipped (m : CsvMap) (s : Nat) (mi : MatchInfo)
    (e : RawPlayerEntry)
    (h : trimL e.username.data = [] ∨ normalize_username e.username = "") :
    csvStep (m, s) mi e = (m, s + 1) := by
  by_cases hs : skipEntry e
  · simp [csvStep, hs]
  · rcases h with h1 | h2
    · exact absurd (Or.inr h1) hs
    · have hke : keyEmpty (normalize_username e.username) := by
        rw [h2]; left; rfl
      simp [csvStep, hs, hke]

/-- C5 witness: the whitespace-only username from the repository's own test
data is skipped with the skip count going from 0 to 1. -/
theorem claim_C5_witness :
    csvStep (emptyCsvMap, 0) ⟨"2025-08-13 10:00:00", "VICTORY"⟩
        ⟨"   ", "Team C", 4, 3, 1, 950, 0, 0⟩
      = (emptyCsvMap, 0 + 1) :=
  claim_C5_empty_username_skipped emptyCsvMap 0 _ _ (Or.inl (by decide))

/-- C6 counterexample: the length-4 intermediate "ruby" ends in the letter y
and its remainder "rub" has length 3, yet neither the trailing-letter stage
nor the whole normalizer strips it — the stage requires length > 4. -/
theorem claim_C6_counterexample :
    ("ruby".data.length = 4 ∧ "ruby".data.getLast? = some 'y')
    ∧ stripYZ "ruby".data = "ruby".data
    ∧ normalize_username "ruby" = "ruby"
    ∧ stripYZ "ruby".data ≠ "rub".data := by
  decide

/-- C6 (amended): the trailing-letter stage strips a single trailing y or z
whenever the intermediate string has length at least 5 (equivalently, the
remainder after stripping has length at least 4), not length ≥ 4 / remainder
≥ 3 as stated. -/
theorem claim_C6_trailing_yz (l : List Char) (h1 : 4 < l.length)
    (h2 : l.getLast? = some 'y' ∨ l.getLast? = some 'z') :
    stripYZ l = l.dropLast := by
  have h3 : 3 ≤ l.dropLast.length := by
    rw [List.length_dropLast]
    omega
  unfold stripYZ
  rw [if_pos ⟨h1, h2⟩]
  show (if 3 ≤ l.dropLast.length then l.dropLast else l) = l.dropLast
  rw [if_pos h3]

/-- C6 witness: the stage strips the trailing y of the 5-letter "abcdy". -/
theorem claim_C6_witness : stripYZ "abcdy".data = "abcdy".data.dropLast :=
  claim_C6_trailing_yz _ (by decide) (Or.inl (by decide))

/-- C7: with zero image files or zero extracted results the CLI only reports an
error (no export events at all); otherwise the flat CSV export is the first
event, before any leaderboard-sink attempt, and the sink outcome (including
failure, `ok = false`) cannot precede or remove it. -/
theorem claim_C7_cli_export_order (fs : List String) (rs : List ImageResult)
    (ns ok : Bool) :
    ((fs = [] ∨ rs = []) → cliEvents fs rs ns ok = [CliEvent.errorExit])
    ∧ (fs ≠ [] → rs ≠ [] →
        (cliEvents fs rs ns ok).head? = some CliEvent.csvExport
        ∧ (ns = false → CliEvent.sheetsExport ok ∈ (cliEvents fs rs ns ok).tail)) := by
  constructor
  · rintro (h | h)
    · simp [cliEvents, h]
    · by_cases hfs : fs = [] <;> simp [cliEvents, hfs, h]
  · intro hf hr
    constructor
    · simp [cliEvents, hf, hr]
    · intro hns
      simp [cliEvents, hf, hr, hns]

/-- C7 witness: one image, one result, sheets enabled but failing — the CSV
export still comes first and the sink attempt follows it. -/
theorem claim_C7_witness :
    (cliEvents ["a.png"] [⟨⟨"t1", "VICTORY"⟩, []⟩] false false).head?
      = some CliEvent.csvExport
    ∧ CliEvent.sheetsExport false
        ∈ (cliEvents ["a.png"] [⟨⟨"t1", "VICTORY"⟩, []⟩] false false).tail := by
  have h := (claim_C7_cli_export_order ["a.png"] [⟨⟨"t1", "VICTORY"⟩, []⟩]
      false false).2 (by simp) (by simp)
  exact ⟨h.1, h.2 rfl⟩

/-- C8 counterexample: with prior data [0] and merged snapshot [1], a failure
after the clear but before the first batch append commits the empty data
region — neither the prior state nor the full merged snapshot, contradicting
logical atomicity. -/
theorem claim_C8_counterexample :
    sheetWriteCommitted [0] [1] (some (WriteFailure.afterBatches 0)) ≠ ([0] : List Nat)
    ∧ sheetWriteCommitted [0] [1] (some (WriteFailure.afterBatches 0)) ≠ ([1] : List Nat) := by
  decide

/-- C8 (amended): the snapshot write is chunked and not logically atomic: the
prior data region is cleared first, a successful write commits the full merged
snapshot, but a failure after k successful batch appends leaves exactly the
first k·100 merged rows committed (the prior rows are already gone). -/
theorem claim_C8_chunked_not_atomic {α : Type} (prior rows : List α) (k : Nat) :
    sheetWriteCommitted prior rows none = rows
    ∧ sheetWriteCommitted prior rows (some (WriteFailure.afterBatches k))
        = rows.take (k * batchSize) := by
  constructor
  · show stateAfterBatches rows (numBatches rows.length) = rows
    rw [stateAfterBatches_eq_take]
    apply List.take_of_length_le
    show rows.length ≤ (rows.length + batchSize - 1) / batchSize * batchSize
    have hd := Nat.div_add_mod (rows.length + batchSize - 1) batchSize
    have hm : (rows.length + batchSize - 1) % batchSize < batchSize :=
      Nat.mod_lt _ (by decide)
    simp only [batchSize] at *
    omega
  · exact stateAfterBatches_eq_take rows k

/-- C9: snapshot rows are keyed through the same normalizer used for new
entries, and when two rows share a normalized key the record built from the
later row completely replaces the earlier one — the earlier totals are
discarded, not summed. -/
theorem claim_C9_later_row_replaces (pre : List SheetRow) (r1 r2 : SheetRow)
    (h1 : r1.username ≠ "") (h2 : r2.username ≠ "")
    (hk : normalize_username r1.username = normalize_username r2.username) :
    readExisting (pre ++ [r1]) (normalize_username r2.username) = some (rowRecord r1)
    ∧ readExisting ((pre ++ [r1]) ++ [r2]) (normalize_username r2.username)
        = some (rowRecord r2) := by
  constructor
  · rw [readExisting_snoc, if_neg h1, if_pos hk.symm]
  · rw [readExisting_snoc, if_neg h2, if_pos rfl]

/-- C9 witness: rows "ZQUINTIN" and "quintin" normalize to the same key; the
later row's record replaces the earlier one wholesale. -/
theorem claim_C9_witness :
    readExisting [⟨"ZQUINTIN", 3, 10, 5, 0, 0, 0, 0, "ATK", some "t0", none⟩]
        (normalize_username "quintin")
      = some (rowRecord ⟨"ZQUINTIN", 3, 10, 5, 0, 0, 0, 0, "ATK", some "t0", none⟩)
    ∧ readExisting
        [⟨"ZQUINTIN", 3, 10, 5, 0, 0, 0, 0, "ATK", some "t0", none⟩,
         ⟨"quintin", 2, 4, 4, 0, 0, 0, 0, "DEF", none, some "t1"⟩]
        (normalize_username "quintin")
      = some (rowRecord ⟨"quintin", 2, 4, 4, 0, 0, 0, 0, "DEF", none, some "t1"⟩) :=
  claim_C9_later_row_replaces []
    ⟨"ZQUINTIN", 3, 10, 5, 0, 0, 0, 0, "ATK", some "t0", none⟩
    ⟨"quintin", 2, 4, 4, 0, 0, 0, 0, "DEF", none, some "t1"⟩
    (by decide) (by decide) (by decide)

/-- C10: with duplicate checking enabled, the content hash is recorded before
the extraction call, so a failed extraction still marks the image as seen and
a later resubmission of the same content is skipped (no retry, no result). -/
theorem claim_C10_hash_recorded_before_extraction (hs : List String) (h : String)
    (retry : Option ImageResult) (hnew : h ∉ hs) :
    (processImage hs true h none).2 = none
    ∧ h ∈ (processImage hs true h none).1
    ∧ processImage (processImage hs true h none).1 true h retry
        = ((processImage hs true h none).1, none) := by
  simp [processImage, hnew]

/-- C10 witness: a fresh hash, failed extraction, then a retry with a
successful extraction outcome that is nevertheless skipped. -/
theorem claim_C10_witness :
    (processImage [] true "hash1" none).2 = none
    ∧ "hash1" ∈ (processImage [] true "hash1" none).1
    ∧ processImage (processImage [] true "hash1" none).1 true "hash1"
        (some ⟨⟨"t1", "VICTORY"⟩, []⟩)
      = ((processImage [] true "hash1" none).1, none) :=
  claim_C10_hash_recorded_before_extraction [] "hash1"
    (some ⟨⟨"t1", "VICTORY"⟩, []⟩) (by simp)

end Fortnite
